import Mathlib

/-!
Verification of the retrieval-augmented question-answering agent.

The control-flow engine lives in agent.py: a LangGraph state machine with
nodes agent_node (Decide), retrieve (a ToolNode running the retriever tool),
rewrite, and generate (Answer), connected by the edges added to the
workflow object, executed with a recursion limit of 5 by run_rag_agent.
The chat transport lives in bot.py: handle_message calls run_rag_agent and
maps its outcome to a user-visible reply.

The four LLM/retriever calls are modelled as an explicit oracle record so a
run of the engine is a pure function of the oracles and the question.
-/

namespace Rag

/-- Role tag of one message, as in langchain message objects. -/
inductive Role where
  | user
  | assistant
  | tool
deriving DecidableEq, Repr

/-- One message of the conversation state. The toolCalls field holds the
queries of the tool invocations the message requests (empty for ordinary
messages), mirroring the tool_calls attribute checked by tools_condition. -/
structure Msg where
  role : Role
  content : String
  toolCalls : List String
deriving DecidableEq, Repr

instance : Inhabited Msg := ⟨⟨Role.user, "", []⟩⟩

/-- The initial user message built from the question,
from inputs in run_rag_agent: messages = [("user", question)]. -/
def userMsg (q : String) : Msg := ⟨Role.user, q, []⟩

/-- The external calls made by the engine, one function per oracle:
decide is the tool-bound ChatOpenAI call of agent_node,
retrieveDocs is the retriever tool run by the ToolNode,
gradeToken is the structured-output grader of grade_documents
(the raw binary_score string before normalization),
rewriteText is the rewriting model call of rewrite,
generateAnswer is the rag_chain call of generate, taking the
context (retrieved docs) first and the question second, as in
rag_chain.invoke with keys context and question. -/
structure Oracles where
  decide : List Msg → Msg
  retrieveDocs : String → String
  gradeToken : String → String → String
  rewriteText : String → String
  generateAnswer : String → String → String

/-- Normalization applied to the binary_score in grade_documents:
binary_score.lower().strip(), modelled on the character list: lowercase
every character, then drop leading and trailing whitespace. -/
def normalizeToken (s : String) : String :=
  ⟨((((s.data.map Char.toLower).dropWhile Char.isWhitespace).reverse.dropWhile
      Char.isWhitespace).reverse)⟩

/-- grade_documents from agent.py: question = messages[0].content,
docs = messages[-1].content, score = binary_score.lower().strip(),
returns "generate" when score == "yes" and "rewrite" otherwise. -/
def grade_documents (o : Oracles) (state : List Msg) : String :=
  let question := (state.headD default).content
  let docs := (state.getLastD default).content
  let score := normalizeToken (o.gradeToken question docs)
  if score = "yes" then "generate" else "rewrite"

/-- agent_node from agent.py: invoke the tool-bound model on the full
message history and append its response. -/
def agent_node (o : Oracles) (msgs : List Msg) : List Msg :=
  [o.decide msgs]

/-- The retrieve node (ToolNode over the retriever tool): execute each
tool call of the last message, appending one tool message per call whose
content is the retrieved text. -/
def retrieve_node (o : Oracles) (msgs : List Msg) : List Msg :=
  ((msgs.getLastD default).toolCalls).map
    (fun query => ⟨Role.tool, o.retrieveDocs query, []⟩)

/-- rewrite from agent.py: rewrite the original question
(messages[0].content) and append the model response. -/
def rewrite (o : Oracles) (msgs : List Msg) : List Msg :=
  [⟨Role.assistant, o.rewriteText ((msgs.headD default).content), []⟩]

/-- generate from agent.py: answer from the retrieved docs
(messages[-1].content) and the original question (messages[0].content),
appending the produced answer text. -/
def generate (o : Oracles) (msgs : List Msg) : List Msg :=
  [⟨Role.assistant,
    o.generateAnswer ((msgs.getLastD default).content)
      ((msgs.headD default).content), []⟩]

/-- The nodes of the compiled workflow graph. -/
inductive Node where
  | agent
  | retrieve
  | rewrite
  | generate
deriving DecidableEq, Repr

/-- Execute one node on the current messages, returning the messages the
node appends (its returned update, merged by add_messages). -/
def execNode (o : Oracles) (n : Node) (msgs : List Msg) : List Msg :=
  match n with
  | Node.agent => agent_node o msgs
  | Node.retrieve => retrieve_node o msgs
  | Node.rewrite => rewrite o msgs
  | Node.generate => generate o msgs

/-- tools_condition from langgraph.prebuilt as used by the workflow:
route to the tools node exactly when the last message carries tool calls. -/
def tools_condition (msgs : List Msg) : Bool :=
  match msgs.getLast? with
  | some m => !m.toolCalls.isEmpty
  | none => false

/-- The edges of the compiled graph (workflow.add_edge and
workflow.add_conditional_edges in agent.py): agent routes to retrieve via
tools_condition or ends, retrieve routes through grade_documents to
generate or rewrite, generate ends, rewrite routes back to agent.
none means the run reaches END. -/
def route (o : Oracles) (n : Node) (msgs : List Msg) : Option Node :=
  match n with
  | Node.agent => if tools_condition msgs then some Node.retrieve else none
  | Node.retrieve =>
      if grade_documents o msgs = "generate" then some Node.generate
      else some Node.rewrite
  | Node.rewrite => some Node.agent
  | Node.generate => none

/-- The entry edge of the graph: workflow.add_edge(START, "agent"). -/
def startNode : Node := Node.agent

/-- The recursion limit passed to graph.stream in run_rag_agent. -/
def recursion_limit : Nat := 5

/-- The failure raised by the graph runtime when the recursion limit is
exceeded (GraphRecursionError). -/
inductive EngineError where
  | recursionLimit
deriving DecidableEq, Repr

/-- One element of the stream of step outputs: the node that ran and the
messages it appended. -/
structure StepOutput where
  node : Node
  newMsgs : List Msg
deriving DecidableEq, Repr

/-- Result of driving the graph: the step outputs yielded by the stream,
and the error, if any, raised after the last yielded step. -/
structure RunResult where
  steps : List StepOutput
  err : Option EngineError
deriving DecidableEq, Repr

/-- The graph driver: execute nodes one super-step at a time, at most
fuel of them, yielding each step output; when a next node is still pending
after the fuel is exhausted, raise the recursion-limit failure, keeping
the steps already yielded. -/
def runSteps (o : Oracles) : Nat → Node → List Msg → List StepOutput → RunResult
  | 0, _, _, acc => ⟨acc, some EngineError.recursionLimit⟩
  | fuel + 1, n, msgs, acc =>
      let out := execNode o n msgs
      let msgs2 := msgs ++ out
      let acc2 := acc ++ [⟨n, out⟩]
      match route o n msgs2 with
      | none => ⟨acc2, none⟩
      | some n2 => runSteps o fuel n2 msgs2 acc2

/-- Stream the graph on one question with the configured recursion limit,
starting from the agent node on the single user message. -/
def runTrace (o : Oracles) (q : String) : RunResult :=
  runSteps o recursion_limit startNode [userMsg q] []

/-- The answer-extraction loop at the end of run_rag_agent: take the last
step output, then the last of its messages, returning its content, with
the fallbacks "No response produced." (no step output at all) and
"No answer generated." (no message or falsy content). -/
def extractAnswer (steps : List StepOutput) : String :=
  match steps.getLast? with
  | none => "No response produced."
  | some st =>
      match st.newMsgs.getLast? with
      | none => "No answer generated."
      | some m => if m.content = "" then "No answer generated." else m.content

/-- run_rag_agent from agent.py: stream the graph and extract the final
answer text; a recursion-limit failure propagates to the caller. -/
def run_rag_agent (o : Oracles) (q : String) : Except EngineError String :=
  match (runTrace o q).err with
  | some e => Except.error e
  | none => Except.ok (extractAnswer (runTrace o q).steps)

/-- The failure classes distinguished by the except clauses of
handle_message in bot.py, each carrying the (never displayed) detail
string of the underlying exception. -/
inductive BotError where
  | graphRecursion (detail : String)
  | valueError (detail : String)
  | runtimeError (detail : String)
  | other (detail : String)
deriving DecidableEq, Repr

/-- handle_message from bot.py, as a function from the outcome of the
run_rag_agent call to the text of the single reply sent to the user. -/
def handle_message (res : Except BotError String) : String :=
  match res with
  | Except.ok a => if a = "" then "No answer produced." else a
  | Except.error (BotError.graphRecursion _) =>
      "Your question is too complex. Please refine or simplify it."
  | Except.error (BotError.valueError _) =>
      "Invalid input. Please check your message and try again."
  | Except.error (BotError.runtimeError _) =>
      "A runtime error occurred. Please try again later."
  | Except.error (BotError.other _) =>
      "An unexpected error occurred. Please try again later."

/-- The states of the specification state machine of section 4.6. -/
inductive SState where
  | Decide
  | Retrieve
  | Grade
  | Answer
  | Rewrite
  | Terminal
deriving DecidableEq, Repr

/-- Modelled from the specification transition table of section 4.6, for
the refinement comparison of the code graph against it: from a state and
the two oracle observations (whether retrieval was requested, whether the
grade was relevant), the next state, or none when the machine halts. -/
def specNext (s : SState) (retrievalRequested relevant : Bool) : Option SState :=
  match s with
  | SState.Decide =>
      if retrievalRequested then some SState.Retrieve else some SState.Terminal
  | SState.Retrieve => some SState.Grade
  | SState.Grade => if relevant then some SState.Answer else some SState.Rewrite
  | SState.Rewrite => some SState.Decide
  | SState.Answer => none
  | SState.Terminal => none

/-- Abstraction of a graph node to its specification state. -/
def absNode : Node → SState
  | Node.agent => SState.Decide
  | Node.retrieve => SState.Retrieve
  | Node.rewrite => SState.Rewrite
  | Node.generate => SState.Answer

/-- Abstraction of a routing result: a next node maps to its state, and
reaching END maps to the Terminal state. -/
def absOpt : Option Node → SState
  | some n => absNode n
  | none => SState.Terminal

/-- Whether the grade conditional routed toward the answer node. -/
def isRelevant (o : Oracles) (msgs : List Msg) : Bool :=
  grade_documents o msgs = "generate"

/-- The specification-level step sequence of a run: each executed node in
order, with the grade evaluation that follows every execution of the
retrieve node made explicit as a Grade step. -/
def specStepsOf : List StepOutput → List SState
  | [] => []
  | s :: rest =>
      (match s.node with
        | Node.agent => [SState.Decide]
        | Node.retrieve => [SState.Retrieve, SState.Grade]
        | Node.rewrite => [SState.Rewrite]
        | Node.generate => [SState.Answer]) ++ specStepsOf rest

/-- One super-step of the engine: execute the current node, append its
output, and follow the routing; none when the run reaches END. -/
def nextState (o : Oracles) (n : Node) (msgs : List Msg) :
    Option (Node × List Msg) :=
  Option.map (fun n2 => (n2, msgs ++ execNode o n msgs))
    (route o n (msgs ++ execNode o n msgs))

/-- The states of the engine reachable during the run on one question:
the initial state, and everything produced by repeated super-steps. -/
inductive Reachable (o : Oracles) (q : String) : Node → List Msg → Prop where
  | init : Reachable o q startNode [userMsg q]
  | step {n : Node} {msgs : List Msg} {n2 : Node} {msgs2 : List Msg} :
      Reachable o q n msgs → nextState o n msgs = some (n2, msgs2) →
      Reachable o q n2 msgs2

/-- The response of the decide oracle to the initial messages. -/
def firstDecision (o : Oracles) (q : String) : Msg := o.decide [userMsg q]

/-- The conversation state after the first agent step. -/
def afterDecide (o : Oracles) (q : String) : List Msg :=
  [userMsg q, firstDecision o q]

/-- The tool messages appended by the first retrieve step. -/
def firstRetrieved (o : Oracles) (q : String) : List Msg :=
  retrieve_node o (afterDecide o q)

/-- The conversation state after the first retrieve step. -/
def afterRetrieve (o : Oracles) (q : String) : List Msg :=
  afterDecide o q ++ firstRetrieved o q

/-- The retrieved text graded after the first retrieval: the content of
the last message of the state the grade conditional runs on. -/
def firstDocs (o : Oracles) (q : String) : String :=
  ((afterRetrieve o q).getLastD default).content

/-- A concrete oracle assignment that always requests retrieval and never
grades the retrieved text as relevant. -/
def loopOracle : Oracles :=
  ⟨fun _ => ⟨Role.assistant, "", ["query"]⟩, fun _ => "docs",
   fun _ _ => "no", fun _ => "rw", fun _ _ => "ans"⟩

/-- A concrete oracle assignment whose decide call answers directly with
an empty text. -/
def emptyDirectOracle : Oracles :=
  ⟨fun _ => ⟨Role.assistant, "", []⟩, fun _ => "docs",
   fun _ _ => "no", fun _ => "rw", fun _ _ => "ans"⟩

/-- A concrete oracle assignment whose decide call answers directly with
a nonempty text. -/
def directOracle : Oracles :=
  ⟨fun _ => ⟨Role.assistant, "direct answer", []⟩, fun _ => "docs",
   fun _ _ => "no", fun _ => "rw", fun _ _ => "ans"⟩

/-- A concrete oracle assignment that retrieves once, grades the result
relevant, and answers with a nonempty text. -/
def happyOracle : Oracles :=
  ⟨fun _ => ⟨Role.assistant, "", ["q1"]⟩, fun _ => "docs",
   fun _ _ => "yes", fun _ => "rw", fun c q => "answer to " ++ q ++ " from " ++ c⟩

/-- A concrete oracle assignment that retrieves once, grades the result
relevant, and answers with the empty string. -/
def emptyAnswerOracle : Oracles :=
  ⟨fun _ => ⟨Role.assistant, "", ["q1"]⟩, fun _ => "docs",
   fun _ _ => "yes", fun _ => "rw", fun _ _ => ""⟩

/-- The oracle record with each external call allowed to fail, modelling
an exception (network or quota failure, with payload type e) raised inside
the oracle client during a node; the engine does not catch it, so it
propagates out of graph.stream and run_rag_agent to the caller. -/
structure FallibleOracles (e : Type) where
  decide : List Msg → Except e Msg
  retrieveDocs : String → Except e String
  gradeToken : String → String → Except e String
  rewriteText : String → Except e String
  generateAnswer : String → String → Except e String

/-- Node execution with fallible oracles: same computation as execNode,
with the oracle failure propagated. -/
def execNodeF {e : Type} (o : FallibleOracles e) (n : Node) (msgs : List Msg) :
    Except e (List Msg) :=
  match n with
  | Node.agent => (o.decide msgs).map (fun m => [m])
  | Node.retrieve =>
      ((msgs.getLastD default).toolCalls).mapM
        (fun query => (o.retrieveDocs query).map
          (fun d => (⟨Role.tool, d, []⟩ : Msg)))
  | Node.rewrite =>
      (o.rewriteText ((msgs.headD default).content)).map
        (fun t => [⟨Role.assistant, t, []⟩])
  | Node.generate =>
      (o.generateAnswer ((msgs.getLastD default).content)
          ((msgs.headD default).content)).map
        (fun t => [⟨Role.assistant, t, []⟩])

/-- grade_documents with a fallible grader: the failure of the structured
output call propagates, otherwise the same normalized exact-match. -/
def grade_documentsF {e : Type} (o : FallibleOracles e) (state : List Msg) :
    Except e String :=
  (o.gradeToken (state.headD default).content
      (state.getLastD default).content).map
    (fun tok => if normalizeToken tok = "yes" then "generate" else "rewrite")

/-- The graph edges with a fallible grade conditional. -/
def routeF {e : Type} (o : FallibleOracles e) (n : Node) (msgs : List Msg) :
    Except e (Option Node) :=
  match n with
  | Node.agent =>
      Except.ok (if tools_condition msgs then some Node.retrieve else none)
  | Node.retrieve =>
      (grade_documentsF o msgs).map
        (fun g => if g = "generate" then some Node.generate
          else some Node.rewrite)
  | Node.rewrite => Except.ok (some Node.agent)
  | Node.generate => Except.ok none

/-- A failure surfacing from the engine entry point: the recursion-limit
failure raised by the graph runtime, or an oracle failure propagated
unchanged from inside a step. -/
inductive RunFailure (e : Type) where
  | recursionLimit
  | oracleFailure (err : e)

/-- The graph driver with fallible oracles: as runSteps, but an oracle
failure inside a node or inside the grade conditional aborts the run and
propagates. -/
def runStepsF {e : Type} (o : FallibleOracles e) :
    Nat → Node → List Msg → List StepOutput →
      Except (RunFailure e) (List StepOutput)
  | 0, _, _, _ => Except.error RunFailure.recursionLimit
  | fuel + 1, n, msgs, acc =>
      match execNodeF o n msgs with
      | Except.error err => Except.error (RunFailure.oracleFailure err)
      | Except.ok out =>
          let msgs2 := msgs ++ out
          let acc2 := acc ++ [⟨n, out⟩]
          match routeF o n msgs2 with
          | Except.error err => Except.error (RunFailure.oracleFailure err)
          | Except.ok none => Except.ok acc2
          | Except.ok (some n2) => runStepsF o fuel n2 msgs2 acc2

/-- run_rag_agent over fallible oracles: stream the graph and extract the
final answer; a recursion-limit failure or a propagated oracle failure
surfaces to the caller. -/
def run_rag_agentF {e : Type} (o : FallibleOracles e) (q : String) :
    Except (RunFailure e) String :=
  (runStepsF o recursion_limit startNode [userMsg q] []).map extractAnswer

/-- Oracles that never fail, viewed as fallible oracles. -/
def liftOracles (o : Oracles) : FallibleOracles Empty :=
  ⟨fun m => Except.ok (o.decide m),
   fun s => Except.ok (o.retrieveDocs s),
   fun a b => Except.ok (o.gradeToken a b),
   fun s => Except.ok (o.rewriteText s),
   fun a b => Except.ok (o.generateAnswer a b)⟩

theorem runSteps_zero (o : Oracles) (n : Node) (msgs : List Msg)
    (acc : List StepOutput) :
    runSteps o 0 n msgs acc = ⟨acc, some EngineError.recursionLimit⟩ := rfl

theorem runSteps_succ_none (o : Oracles) (fuel : Nat) (n : Node)
    (msgs : List Msg) (acc : List StepOutput)
    (h : route o n (msgs ++ execNode o n msgs) = none) :
    runSteps o (fuel + 1) n msgs acc =
      ⟨acc ++ [⟨n, execNode o n msgs⟩], none⟩ := by
  simp only [runSteps]
  rw [h]

theorem runSteps_succ_some (o : Oracles) (fuel : Nat) (n n2 : Node)
    (msgs : List Msg) (acc : List StepOutput)
    (h : route o n (msgs ++ execNode o n msgs) = some n2) :
    runSteps o (fuel + 1) n msgs acc =
      runSteps o fuel n2 (msgs ++ execNode o n msgs)
        (acc ++ [⟨n, execNode o n msgs⟩]) := by
  simp only [runSteps]
  rw [h]

theorem runSteps_length_le (o : Oracles) :
    ∀ (fuel : Nat) (n : Node) (msgs : List Msg) (acc : List StepOutput),
      (runSteps o fuel n msgs acc).steps.length ≤ acc.length + fuel := by
  intro fuel
  induction fuel with
  | zero => intro n msgs acc; simp [runSteps_zero]
  | succ fuel ih =>
      intro n msgs acc
      cases hr : route o n (msgs ++ execNode o n msgs) with
      | none =>
          rw [runSteps_succ_none o fuel n msgs acc hr]
          simp
      | some n2 =>
          rw [runSteps_succ_some o fuel n n2 msgs acc hr]
          have h2 := ih n2 (msgs ++ execNode o n msgs) (acc ++ [⟨n, execNode o n msgs⟩])
          simp at h2
          omega

theorem runSteps_err_length (o : Oracles) :
    ∀ (fuel : Nat) (n : Node) (msgs : List Msg) (acc : List StepOutput) (e : EngineError),
      (runSteps o fuel n msgs acc).err = some e →
      (runSteps o fuel n msgs acc).steps.length = acc.length + fuel := by
  intro fuel
  induction fuel with
  | zero => intro n msgs acc e _; simp [runSteps_zero]
  | succ fuel ih =>
      intro n msgs acc e he
      cases hr : route o n (msgs ++ execNode o n msgs) with
      | none =>
          rw [runSteps_succ_none o fuel n msgs acc hr] at he
          simp at he
      | some n2 =>
          rw [runSteps_succ_some o fuel n n2 msgs acc hr] at he ⊢
          have h2 := ih n2 (msgs ++ execNode o n msgs)
            (acc ++ [⟨n, execNode o n msgs⟩]) e he
          simp at h2
          omega

theorem route_ne_some_generate (o : Oracles) (msgs : List Msg)
    (hg : ∀ a b, normalizeToken (o.gradeToken a b) ≠ "yes") (n : Node) :
    route o n msgs ≠ some Node.generate := by
  cases n with
  | agent =>
      by_cases h : tools_condition msgs <;> simp [route, h]
  | retrieve =>
      simp [route, grade_documents, hg]
  | rewrite => simp [route]
  | generate => simp [route]

theorem runSteps_no_generate (o : Oracles)
    (hg : ∀ a b, normalizeToken (o.gradeToken a b) ≠ "yes") :
    ∀ (fuel : Nat) (n : Node) (msgs : List Msg) (acc : List StepOutput),
      n ≠ Node.generate → (∀ s ∈ acc, s.node ≠ Node.generate) →
      ∀ s ∈ (runSteps o fuel n msgs acc).steps, s.node ≠ Node.generate := by
  intro fuel
  induction fuel with
  | zero =>
      intro n msgs acc hn hacc
      simpa [runSteps_zero] using hacc
  | succ fuel ih =>
      intro n msgs acc hn hacc
      cases hr : route o n (msgs ++ execNode o n msgs) with
      | none =>
          rw [runSteps_succ_none o fuel n msgs acc hr]
          intro s hs
          rcases List.mem_append.mp hs with h | h
          · exact hacc s h
          · rcases List.mem_singleton.mp h with rfl
            exact hn
      | some n2 =>
          rw [runSteps_succ_some o fuel n n2 msgs acc hr]
          refine ih n2 (msgs ++ execNode o n msgs)
            (acc ++ [⟨n, execNode o n msgs⟩]) ?_ ?_
          · intro h2
            subst h2
            exact route_ne_some_generate o (msgs ++ execNode o n msgs) hg n hr
          · intro s hs
            rcases List.mem_append.mp hs with h | h
            · exact hacc s h
            · rcases List.mem_singleton.mp h with rfl
              exact hn

theorem Reachable.msgs2_eq {o : Oracles} {n n2 : Node} {msgs msgs2 : List Msg}
    (hns : nextState o n msgs = some (n2, msgs2)) :
    msgs2 = msgs ++ execNode o n msgs := by
  unfold nextState at hns
  cases hr : route o n (msgs ++ execNode o n msgs) with
  | none => rw [hr] at hns; simp at hns
  | some n3 =>
      rw [hr] at hns
      simp at hns
      exact hns.2.symm

theorem Reachable.head_eq {o : Oracles} {q : String} :
    ∀ {n : Node} {msgs : List Msg}, Reachable o q n msgs →
      msgs.head? = some (userMsg q) := by
  intro n msgs h
  induction h with
  | init => rfl
  | step h hns ih =>
      rw [Reachable.msgs2_eq hns, List.head?_append, ih]
      rfl

/-- C1: when the relevance grade is never affirmative, every run is bounded
by the iteration cap (recursion limit 5): the step trace has at most 5
entries, the Answer node never executes, and whenever the run does not end
within the cap, the engine aborts with the dedicated recursion-limit
failure after exactly 5 steps. -/
theorem engine_iteration_cap (o : Oracles) (q : String)
    (hg : ∀ a b, normalizeToken (o.gradeToken a b) ≠ "yes") :
    (runTrace o q).steps.length ≤ recursion_limit ∧
    (∀ s ∈ (runTrace o q).steps, s.node ≠ Node.generate) ∧
    ((runTrace o q).err = none ∨
      (run_rag_agent o q = Except.error EngineError.recursionLimit ∧
        (runTrace o q).steps.length = recursion_limit)) := by
  refine ⟨?_, ?_, ?_⟩
  · simpa [runTrace] using
      runSteps_length_le o recursion_limit startNode [userMsg q] []
  · intro s hs
    refine runSteps_no_generate o hg recursion_limit startNode [userMsg q] []
      (by decide) (by simp) s ?_
    simpa [runTrace] using hs
  · cases he : (runTrace o q).err with
    | none => exact Or.inl rfl
    | some e =>
        cases e
        refine Or.inr ⟨?_, ?_⟩
        · unfold run_rag_agent
          rw [he]
        · have h2 := runSteps_err_length o recursion_limit startNode [userMsg q]
            [] EngineError.recursionLimit (by simpa [runTrace] using he)
          simpa [runTrace] using h2

theorem engine_iteration_cap_witness :
    (runTrace loopOracle "q").steps.length ≤ recursion_limit ∧
    ((runTrace loopOracle "q").err = none ∨
      (run_rag_agent loopOracle "q" = Except.error EngineError.recursionLimit ∧
        (runTrace loopOracle "q").steps.length = recursion_limit)) :=
  ⟨(engine_iteration_cap loopOracle "q"
      (fun a b => (by decide : normalizeToken "no" ≠ "yes"))).1,
   (engine_iteration_cap loopOracle "q"
      (fun a b => (by decide : normalizeToken "no" ≠ "yes"))).2.2⟩

/-- C2: in every reachable state of a run on question q, the first turn is
still the original user question, so the grade step, which passes the first
turn content as the question, invokes the relevance oracle with the
unmodified original question, also after any number of rewrite passes. -/
theorem grade_uses_original_question (o : Oracles) (q : String) (n : Node)
    (msgs : List Msg) (h : Reachable o q n msgs) :
    (msgs.headD default).content = q ∧
    grade_documents o msgs =
      (if normalizeToken
          (o.gradeToken q ((msgs.getLastD default).content)) = "yes"
        then "generate" else "rewrite") := by
  have h1 : (msgs.headD default).content = q := by
    rw [List.headD_eq_head?, Reachable.head_eq h]
    rfl
  refine ⟨h1, ?_⟩
  simp only [grade_documents]
  rw [h1]

/-- A state of the loop oracle run reached after one full
Decide, Retrieve, Grade, Rewrite cycle. -/
def reachedState : List Msg :=
  [userMsg "q", ⟨Role.assistant, "", ["query"]⟩, ⟨Role.tool, "docs", []⟩,
   ⟨Role.assistant, "rw", []⟩]

theorem grade_uses_original_question_witness :
    (reachedState.headD default).content = "q" ∧
    grade_documents loopOracle reachedState =
      (if normalizeToken
          (loopOracle.gradeToken "q" ((reachedState.getLastD default).content)) = "yes"
        then "generate" else "rewrite") := by
  have r1 : Reachable loopOracle "q" Node.retrieve
      [userMsg "q", ⟨Role.assistant, "", ["query"]⟩] :=
    Reachable.step Reachable.init rfl
  have r2 : Reachable loopOracle "q" Node.rewrite
      [userMsg "q", ⟨Role.assistant, "", ["query"]⟩, ⟨Role.tool, "docs", []⟩] :=
    Reachable.step r1 rfl
  have r3 : Reachable loopOracle "q" Node.agent reachedState :=
    Reachable.step r2 rfl
  exact grade_uses_original_question loopOracle "q" Node.agent reachedState r3

/-- C3: the grade step routes toward the answer node exactly when the
relevance token, lowercased and stripped, equals yes; every other token
routes toward rewrite, and the step is a total function of the token. -/
theorem grade_token_policy (o : Oracles) (msgs : List Msg) :
    (grade_documents o msgs = "generate" ↔
      normalizeToken (o.gradeToken ((msgs.headD default).content)
        ((msgs.getLastD default).content)) = "yes") ∧
    (grade_documents o msgs = "generate" ∨ grade_documents o msgs = "rewrite") ∧
    (route o Node.retrieve msgs = some Node.generate ↔
      normalizeToken (o.gradeToken ((msgs.headD default).content)
        ((msgs.getLastD default).content)) = "yes") ∧
    (route o Node.retrieve msgs = some Node.generate ∨
      route o Node.retrieve msgs = some Node.rewrite) := by
  by_cases h : normalizeToken (o.gradeToken ((msgs.headD default).content)
      ((msgs.getLastD default).content)) = "yes" <;>
    simp [grade_documents, route, h] <;> tauto

theorem grade_token_policy_witness :
    grade_documents loopOracle [userMsg "q"] = "generate" ∨
    grade_documents loopOracle [userMsg "q"] = "rewrite" :=
  (grade_token_policy loopOracle [userMsg "q"]).2.1

/-- C4: the compiled graph matches the specification transition table
exactly: the entry node abstracts to Decide; the agent conditional
realizes the Decide row; the retrieve conditional realizes the Retrieve
and Grade rows composed; rewrite routes back to the agent node, realizing
the Rewrite row and forming the only edge back into the cycle; the
generate node halts like the Answer row; and no node other than rewrite
ever routes back to the agent node. -/
theorem graph_matches_spec_table (o : Oracles) (msgs : List Msg) (t r : Bool) :
    absNode startNode = SState.Decide ∧
    specNext SState.Decide (tools_condition msgs) r =
      some (absOpt (route o Node.agent msgs)) ∧
    specNext SState.Retrieve t r = some SState.Grade ∧
    specNext SState.Grade t (isRelevant o msgs) =
      some (absOpt (route o Node.retrieve msgs)) ∧
    specNext SState.Rewrite t r = some (absOpt (route o Node.rewrite msgs)) ∧
    route o Node.generate msgs = none ∧
    specNext SState.Answer t r = none ∧
    route o Node.rewrite msgs = some Node.agent ∧
    ((route o Node.agent msgs == some Node.agent) = false) ∧
    ((route o Node.retrieve msgs == some Node.agent) = false) ∧
    ((route o Node.generate msgs == some Node.agent) = false) := by
  refine ⟨rfl, ?_, rfl, ?_, rfl, rfl, rfl, rfl, ?_, ?_, rfl⟩
  · by_cases h : tools_condition msgs <;>
      simp [specNext, route, h, absOpt, absNode]
  · by_cases h : grade_documents o msgs = "generate" <;>
      simp [specNext, route, isRelevant, h, absOpt, absNode]
  · by_cases h : tools_condition msgs <;> simp [route, h]
  · by_cases h : grade_documents o msgs = "generate" <;> simp [route, h]

theorem graph_matches_spec_table_witness :
    specNext SState.Decide (tools_condition [userMsg "q"]) false =
      some (absOpt (route loopOracle Node.agent [userMsg "q"])) :=
  (graph_matches_spec_table loopOracle [userMsg "q"] true false).2.1

/-- C5 counterexample: a decide oracle that answers directly with the
empty text; the engine takes exactly one step, yet the entry point returns
the fallback text "No answer generated.", which differs from the direct
answer text, so the direct answer is not returned unchanged. -/
theorem direct_answer_counterexample :
    (firstDecision emptyDirectOracle "q").toolCalls = [] ∧
    (runTrace emptyDirectOracle "q").steps =
      [⟨Node.agent, [firstDecision emptyDirectOracle "q"]⟩] ∧
    run_rag_agent emptyDirectOracle "q" = Except.ok "No answer generated." ∧
    (((firstDecision emptyDirectOracle "q").content == "No answer generated.")
      = false) :=
  ⟨rfl, rfl, rfl, rfl⟩

/-- C5 amended: when the first decide call answers directly (no tool call)
and its text is nonempty, the engine terminates after exactly one step and
the entry point returns that text unchanged; an empty direct answer is
replaced by the fixed placeholder. -/
theorem direct_answer_run (o : Oracles) (q : String)
    (hd : (firstDecision o q).toolCalls = [])
    (hc : (firstDecision o q).content ≠ "") :
    (runTrace o q).steps = [⟨Node.agent, [firstDecision o q]⟩] ∧
    (runTrace o q).err = none ∧
    run_rag_agent o q = Except.ok (firstDecision o q).content := by
  have hroute0 : route o Node.agent (afterDecide o q) = none := by
    have ht : tools_condition (afterDecide o q)
        = !(firstDecision o q).toolCalls.isEmpty := rfl
    simp [route, ht, hd]
  have hroute : route o Node.agent
      ([userMsg q] ++ execNode o Node.agent [userMsg q]) = none := hroute0
  have h5 : runTrace o q = runSteps o (4 + 1) Node.agent [userMsg q] [] := rfl
  have htr : runTrace o q =
      ⟨[⟨Node.agent, [firstDecision o q]⟩], none⟩ := by
    rw [h5, runSteps_succ_none o 4 Node.agent [userMsg q] [] hroute]
    rfl
  refine ⟨by rw [htr], by rw [htr], ?_⟩
  unfold run_rag_agent
  rw [htr]
  show Except.ok (if (firstDecision o q).content = ""
      then "No answer generated." else (firstDecision o q).content) = _
  rw [if_neg hc]

theorem direct_answer_run_witness :
    run_rag_agent directOracle "q" =
      Except.ok (firstDecision directOracle "q").content :=
  (direct_answer_run directOracle "q" rfl (by decide)).2.2

/-- C6 counterexample: an oracle assignment whose first retrieval is
graded relevant and whose answer oracle returns the empty string; the run
performs exactly the Decide, Retrieve, Grade, Answer sequence, yet the
entry point returns the fallback text instead of the answer oracle
output. -/
theorem relevant_first_retrieval_counterexample :
    specStepsOf (runTrace emptyAnswerOracle "q").steps =
      [SState.Decide, SState.Retrieve, SState.Grade, SState.Answer] ∧
    normalizeToken (emptyAnswerOracle.gradeToken "q"
      (firstDocs emptyAnswerOracle "q")) = "yes" ∧
    emptyAnswerOracle.generateAnswer (firstDocs emptyAnswerOracle "q") "q" = "" ∧
    run_rag_agent emptyAnswerOracle "q" = Except.ok "No answer generated." ∧
    (("No answer generated." == "") = false) :=
  ⟨rfl, rfl, rfl, rfl, rfl⟩

/-- C6 amended: when the first decide call requests retrieval, the first
retrieval is graded relevant, and the answer oracle output is nonempty,
the run is exactly the Decide, Retrieve, Grade, Answer sequence and the
entry point returns the answer oracle output; an empty answer output is
replaced by the fixed placeholder. -/
theorem relevant_first_retrieval_run (o : Oracles) (q : String)
    (hd : (firstDecision o q).toolCalls ≠ [])
    (hg : normalizeToken (o.gradeToken q (firstDocs o q)) = "yes")
    (ha : o.generateAnswer (firstDocs o q) q ≠ "") :
    (runTrace o q).steps =
      [⟨Node.agent, [firstDecision o q]⟩,
       ⟨Node.retrieve, firstRetrieved o q⟩,
       ⟨Node.generate,
        [⟨Role.assistant, o.generateAnswer (firstDocs o q) q, []⟩]⟩] ∧
    specStepsOf (runTrace o q).steps =
      [SState.Decide, SState.Retrieve, SState.Grade, SState.Answer] ∧
    (runTrace o q).err = none ∧
    run_rag_agent o q = Except.ok (o.generateAnswer (firstDocs o q) q) := by
  obtain ⟨c, cs, hcs⟩ : ∃ c cs, (firstDecision o q).toolCalls = c :: cs := by
    cases h : (firstDecision o q).toolCalls with
    | nil => exact absurd h hd
    | cons c cs => exact ⟨c, cs, rfl⟩
  have hroute1 : route o Node.agent (afterDecide o q) = some Node.retrieve := by
    have ht : tools_condition (afterDecide o q)
        = !(firstDecision o q).toolCalls.isEmpty := rfl
    simp [route, ht, hcs]
  have hgrade : grade_documents o (afterRetrieve o q) = "generate" := by
    show (if normalizeToken (o.gradeToken
        ((afterRetrieve o q).headD default).content (firstDocs o q)) = "yes"
      then "generate" else "rewrite") = "generate"
    rw [show ((afterRetrieve o q).headD default).content = q from rfl, hg]
    simp
  have hroute2 : route o Node.retrieve (afterRetrieve o q) =
      some Node.generate := by
    simp [route, hgrade]
  have e1 : runTrace o q = runSteps o 4 Node.retrieve (afterDecide o q)
      [⟨Node.agent, [firstDecision o q]⟩] := by
    show runSteps o (4 + 1) Node.agent [userMsg q] [] = _
    rw [runSteps_succ_some o 4 Node.agent Node.retrieve [userMsg q] []
      (by exact hroute1)]
    rfl
  have e2 : runSteps o 4 Node.retrieve (afterDecide o q)
      [⟨Node.agent, [firstDecision o q]⟩] =
      runSteps o 3 Node.generate (afterRetrieve o q)
        [⟨Node.agent, [firstDecision o q]⟩,
         ⟨Node.retrieve, firstRetrieved o q⟩] := by
    show runSteps o (3 + 1) Node.retrieve (afterDecide o q) _ = _
    rw [runSteps_succ_some o 3 Node.retrieve Node.generate (afterDecide o q)
      [⟨Node.agent, [firstDecision o q]⟩] (by exact hroute2)]
    rfl
  have e3 : runSteps o 3 Node.generate (afterRetrieve o q)
      [⟨Node.agent, [firstDecision o q]⟩,
       ⟨Node.retrieve, firstRetrieved o q⟩] =
      ⟨[⟨Node.agent, [firstDecision o q]⟩,
        ⟨Node.retrieve, firstRetrieved o q⟩,
        ⟨Node.generate,
         [⟨Role.assistant, o.generateAnswer (firstDocs o q) q, []⟩]⟩],
       none⟩ := by
    show runSteps o (2 + 1) Node.generate (afterRetrieve o q) _ = _
    rw [runSteps_succ_none o 2 Node.generate (afterRetrieve o q)
      [⟨Node.agent, [firstDecision o q]⟩,
       ⟨Node.retrieve, firstRetrieved o q⟩] rfl]
    rfl
  have htr : runTrace o q =
      ⟨[⟨Node.agent, [firstDecision o q]⟩,
        ⟨Node.retrieve, firstRetrieved o q⟩,
        ⟨Node.generate,
         [⟨Role.assistant, o.generateAnswer (firstDocs o q) q, []⟩]⟩],
       none⟩ := by
    rw [e1, e2, e3]
  refine ⟨by rw [htr], by rw [htr]; rfl, by rw [htr], ?_⟩
  unfold run_rag_agent
  rw [htr]
  show Except.ok (if o.generateAnswer (firstDocs o q) q = ""
      then "No answer generated." else o.generateAnswer (firstDocs o q) q) = _
  rw [if_neg ha]

theorem relevant_first_retrieval_run_witness :
    run_rag_agent happyOracle "q" =
      Except.ok (happyOracle.generateAnswer (firstDocs happyOracle "q") "q") :=
  (relevant_first_retrieval_run happyOracle "q" (by decide)
    (by decide) (by decide)).2.2.2

theorem extractAnswer_eq_of_getLast (steps : List StepOutput)
    (st : StepOutput) (h1 : steps.getLast? = some st) :
    extractAnswer steps =
      (match st.newMsgs.getLast? with
        | none => "No answer generated."
        | some m =>
            if m.content = "" then "No answer generated." else m.content) := by
  unfold extractAnswer
  rw [h1]

theorem mapM_loop_ok {e α β : Type} (f : α → β) :
    ∀ (l : List α) (acc : List β),
      List.mapM.loop (fun a => (Except.ok (f a) : Except e β)) l acc =
        Except.ok (acc.reverse ++ l.map f) := by
  intro l
  induction l with
  | nil =>
      intro acc
      simp [List.mapM.loop]
      rfl
  | cons a t ih =>
      intro acc
      show List.mapM.loop (fun a => (Except.ok (f a) : Except e β)) t
        (f a :: acc) = _
      rw [ih (f a :: acc)]
      simp

theorem mapM_ok_map {e α β : Type} (f : α → β) (l : List α) :
    (l.mapM (fun a => (Except.ok (f a) : Except e β))) =
      Except.ok (l.map f) := by
  show List.mapM.loop (fun a => (Except.ok (f a) : Except e β)) l [] = _
  rw [mapM_loop_ok]
  rfl

theorem execNodeF_lift (o : Oracles) (n : Node) (msgs : List Msg) :
    execNodeF (liftOracles o) n msgs = Except.ok (execNode o n msgs) := by
  cases n with
  | agent => rfl
  | retrieve => exact mapM_ok_map _ _
  | rewrite => rfl
  | generate => rfl

theorem routeF_lift (o : Oracles) (n : Node) (msgs : List Msg) :
    routeF (liftOracles o) n msgs = Except.ok (route o n msgs) := by
  cases n <;> rfl

/-- With oracles that never fail, the fallible driver coincides with the
total one: it succeeds with the same steps, or fails with the
recursion-limit failure exactly when the total driver records it. -/
theorem runStepsF_lift (o : Oracles) :
    ∀ (fuel : Nat) (n : Node) (msgs : List Msg) (acc : List StepOutput),
      runStepsF (liftOracles o) fuel n msgs acc =
        (match (runSteps o fuel n msgs acc).err with
          | some _ => Except.error RunFailure.recursionLimit
          | none => Except.ok (runSteps o fuel n msgs acc).steps) := by
  intro fuel
  induction fuel with
  | zero => intro n msgs acc; rfl
  | succ fuel ih =>
      intro n msgs acc
      simp only [runStepsF]
      rw [execNodeF_lift]
      dsimp only
      rw [routeF_lift]
      cases hr : route o n (msgs ++ execNode o n msgs) with
      | none =>
          rw [runSteps_succ_none o fuel n msgs acc hr]
      | some n2 =>
          rw [runSteps_succ_some o fuel n n2 msgs acc hr]
          dsimp only
          exact ih n2 (msgs ++ execNode o n msgs)
            (acc ++ [⟨n, execNode o n msgs⟩])

/-- Case analysis of the extraction loop at the end of run_rag_agent. -/
theorem extractAnswer_classes (steps : List StepOutput) :
    (∃ m, steps.getLast?.bind (fun st => st.newMsgs.getLast?) = some m ∧
      m.content ≠ "" ∧ extractAnswer steps = m.content) ∨
    extractAnswer steps = "No answer generated." ∨
    extractAnswer steps = "No response produced." := by
  cases h1 : steps.getLast? with
  | none =>
      right; right
      unfold extractAnswer
      rw [h1]
  | some st =>
      have hx := extractAnswer_eq_of_getLast steps st h1
      cases h2 : st.newMsgs.getLast? with
      | none =>
          right; left
          rw [hx, h2]
      | some m =>
          by_cases hc : m.content = ""
          · right; left
            rw [hx, h2]
            simp [hc]
          · left
            refine ⟨m, by simp [h1, h2], hc, ?_⟩
            rw [hx, h2]
            simp [hc]

/-- C7 counterexample: a run in which the terminal step produced the empty
answer text, yet the entry point returns the fixed fallback text
"No answer generated." in its place instead of the step output. -/
theorem run_fallback_counterexample :
    (runTrace emptyAnswerOracle "q").err = none ∧
    (runTrace emptyAnswerOracle "q").steps.getLast?.bind
      (fun st => st.newMsgs.getLast?) = some (⟨Role.assistant, "", []⟩ : Msg) ∧
    run_rag_agent emptyAnswerOracle "q" = Except.ok "No answer generated." ∧
    (("No answer generated." == "") = false) :=
  ⟨rfl, rfl, rfl, rfl⟩

/-- C7 amended: every run of the entry point either fails with the
recursion-limit error, or fails with a propagated oracle failure, or
returns the nonempty answer text of the last message of the last step, or
returns one of the two fixed placeholder texts that stand in for an empty
or missing step output; no other outcome occurs, and no other recovery is
performed. -/
theorem run_result_classes {e : Type} (o : FallibleOracles e) (q : String) :
    run_rag_agentF o q = Except.error RunFailure.recursionLimit ∨
    (∃ err, run_rag_agentF o q =
      Except.error (RunFailure.oracleFailure err)) ∨
    (∃ steps m,
      runStepsF o recursion_limit startNode [userMsg q] [] =
        Except.ok steps ∧
      steps.getLast?.bind (fun st => st.newMsgs.getLast?) = some m ∧
      m.content ≠ "" ∧ run_rag_agentF o q = Except.ok m.content) ∨
    run_rag_agentF o q = Except.ok "No answer generated." ∨
    run_rag_agentF o q = Except.ok "No response produced." := by
  cases hr : runStepsF o recursion_limit startNode [userMsg q] [] with
  | error f =>
      cases f with
      | recursionLimit =>
          left
          unfold run_rag_agentF
          rw [hr]
          rfl
      | oracleFailure err =>
          right; left
          exact ⟨err, by unfold run_rag_agentF; rw [hr]; rfl⟩
  | ok steps =>
      have hrun : run_rag_agentF o q = Except.ok (extractAnswer steps) := by
        unfold run_rag_agentF
        rw [hr]
        rfl
      right; right
      rcases extractAnswer_classes steps with ⟨m, hm, hc, hev⟩ | h | h
      · exact Or.inl ⟨steps, m, rfl, hm, hc, by rw [hrun, hev]⟩
      · exact Or.inr (Or.inl (by rw [hrun, h]))
      · exact Or.inr (Or.inr (by rw [hrun, h]))

/-- A fallible oracle assignment whose retriever fails; the failure
surfaces unchanged from the entry point, exercising the propagated
oracle-failure class. -/
def failingOracle : FallibleOracles String :=
  ⟨fun _ => Except.ok ⟨Role.assistant, "", ["query"]⟩,
   fun _ => Except.error "network down",
   fun _ _ => Except.ok "no",
   fun _ => Except.ok "rw",
   fun _ _ => Except.ok "ans"⟩

theorem failingOracle_propagates :
    run_rag_agentF failingOracle "q" =
      Except.error (RunFailure.oracleFailure "network down") := rfl

/-- C8 counterexample: a ValueError failure from the engine is mapped to
its own invalid-input message, which is neither the single generic
unexpected-error message nor the too-complex message, so the handler does
not map failures into exactly two classes. -/
theorem handler_two_classes_counterexample :
    handle_message (Except.error (BotError.valueError "boom")) =
      "Invalid input. Please check your message and try again." ∧
    ((handle_message (Except.error (BotError.valueError "boom")) ==
      "An unexpected error occurred. Please try again later.") = false) ∧
    ((handle_message (Except.error (BotError.valueError "boom")) ==
      "Your question is too complex. Please refine or simplify it.") = false) :=
  ⟨rfl, rfl, rfl⟩

/-- C8 amended: the handler maps failures into four classes, each reply a
fixed string independent of the failure detail: recursion-limit failures
to the too-complex message, ValueError to an invalid-input message,
RuntimeError to a runtime-error message, and any other failure to the
generic unexpected-error message; no internal detail reaches the user. -/
theorem handler_failure_mapping (d : String) :
    handle_message (Except.error (BotError.graphRecursion d)) =
      "Your question is too complex. Please refine or simplify it." ∧
    handle_message (Except.error (BotError.valueError d)) =
      "Invalid input. Please check your message and try again." ∧
    handle_message (Except.error (BotError.runtimeError d)) =
      "A runtime error occurred. Please try again later." ∧
    handle_message (Except.error (BotError.other d)) =
      "An unexpected error occurred. Please try again later." :=
  ⟨rfl, rfl, rfl, rfl⟩

theorem handler_failure_mapping_witness :
    handle_message (Except.error (BotError.graphRecursion "limit reached")) =
      "Your question is too complex. Please refine or simplify it." :=
  (handler_failure_mapping "limit reached").1

/-- C9: the conversation state is append-only: in every reachable state of
a run on question q the first turn is still the original user question,
and every super-step extends the message list exactly by the executed
node's output, never modifying or removing an existing turn. -/
theorem state_append_only (o : Oracles) (q : String) (n : Node)
    (msgs : List Msg) (h : Reachable o q n msgs) :
    msgs.head? = some (userMsg q) ∧
    ∀ (n2 : Node) (msgs2 : List Msg),
      nextState o n msgs = some (n2, msgs2) →
      msgs2 = msgs ++ execNode o n msgs :=
  ⟨Reachable.head_eq h, fun _ _ hns => Reachable.msgs2_eq hns⟩

theorem state_append_only_witness :
    ([userMsg "q"] : List Msg).head? = some (userMsg "q") :=
  (state_append_only loopOracle "q" Node.agent [userMsg "q"] Reachable.init).1

/-- C10: for every outcome of the engine call, the message handler
produces exactly one reply and never propagates a failure: a normal
return is echoed, with the placeholder "No answer produced." replacing an
empty answer, and every failure class is converted into one of the four
fixed replies. -/
theorem handler_always_replies :
    (∀ a : String, handle_message (Except.ok a) =
      (if a = "" then "No answer produced." else a)) ∧
    (∀ e : BotError, handle_message (Except.error e) ∈
      (["Your question is too complex. Please refine or simplify it.",
        "Invalid input. Please check your message and try again.",
        "A runtime error occurred. Please try again later.",
        "An unexpected error occurred. Please try again later."] :
        List String)) := by
  refine ⟨fun a => rfl, fun e => ?_⟩
  cases e <;> simp [handle_message]

theorem handler_always_replies_witness :
    handle_message (Except.ok "hi") =
      (if "hi" = "" then "No answer produced." else "hi") :=
  handler_always_replies.1 "hi"

end Rag
